import Mathlib

/-!
Verification of the multi-year (year-grid) datepicker view
(`src/lib/datepicker/multi-year-view.ts`).

The component's own logic (`_init`, `_yearSelected`,
`_handleCalendarBodyKeydown`, the `activeDate` / `minDate` / `maxDate`
setters, `_shouldEnableYear`, `_getValidDateOrNull`) is translated
directly from the source.  The calendar adapter (`DateAdapter`) consumed
by the component is an external collaborator whose code is not part of
the source under verification; it is modelled from the specification as
a proleptic Gregorian calendar (month `0`..`11`, day `1`-based), with
JavaScript's truncating `%` rendered as `Int.tmod` and
`Math.floor(x / n)` rendered as `Int.fdiv`.
-/

namespace MultiYearView

/-- `export const yearsPerPage = 24`. -/
def yearsPerPage : Nat := 24

/-- `export const yearsPerRow = 4`. -/
def yearsPerRow : Nat := 4

/-- Key codes from `@angular/cdk/keycodes` used by the component. -/
def LEFT_ARROW : Nat := 37

def UP_ARROW : Nat := 38

def RIGHT_ARROW : Nat := 39

def DOWN_ARROW : Nat := 40

def HOME : Nat := 36

def END : Nat := 35

def PAGE_UP : Nat := 33

def PAGE_DOWN : Nat := 34

def ENTER : Nat := 13

def SPACE : Nat := 32

/-- Modelled from the spec: a calendar date as handled by the missing
Calendar Adapter — year, month (`0`..`11`) and day of month (`1`-based). -/
structure GDate where
  year : Int
  month : Nat
  day : Nat
deriving Repr, DecidableEq

/-- Modelled from the spec: Gregorian leap-year rule used by the missing
adapter's calendar arithmetic. -/
def isLeapYear (y : Int) : Bool :=
  (y % 4 == 0 && y % 100 != 0) || y % 400 == 0

/-- Modelled from the spec: number of days of month `m` (`0`-based) in
year `y`, as supplied by the missing adapter's `getNumDaysInMonth`. -/
def daysInMonth (y : Int) (m : Nat) : Nat :=
  if m = 1 then (if isLeapYear y then 29 else 28)
  else if m = 3 ∨ m = 5 ∨ m = 8 ∨ m = 10 then 30
  else 31

/-- Modelled from the spec: the missing adapter's `isValid` /
`isDateInstance` check — the month is in range and the day exists in
that month. -/
def GDate.Valid (d : GDate) : Prop :=
  d.month < 12 ∧ 1 ≤ d.day ∧ d.day ≤ daysInMonth d.year d.month

instance (d : GDate) : Decidable d.Valid := by
  unfold GDate.Valid
  infer_instance

/-- Modelled from the spec: the missing adapter's `createDate`. -/
def createDate (year : Int) (month : Nat) (day : Nat) : GDate :=
  ⟨year, month, day⟩

/-- Modelled from the spec: the missing adapter's `getNumDaysInMonth`
on a date. -/
def getNumDaysInMonth (d : GDate) : Nat :=
  daysInMonth d.year d.month

/-- Modelled from the spec: the missing adapter's `compareDate` —
year difference if nonzero, else month difference if nonzero, else day
difference (the JavaScript `a || b || c` chain of component deltas). -/
def compareDate (a b : GDate) : Int :=
  if a.year - b.year ≠ 0 then a.year - b.year
  else if (a.month : Int) - (b.month : Int) ≠ 0 then (a.month : Int) - (b.month : Int)
  else (a.day : Int) - (b.day : Int)

/-- Modelled from the spec: the missing adapter's `clampDate` — if a
minimum is set and the date is before it, the minimum; else if a maximum
is set and the date is after it, the maximum; else the date itself. -/
def clampDate (date : GDate) (lo hi : Option GDate) : GDate :=
  match lo, hi with
  | some mn, some mx =>
    if compareDate date mn < 0 then mn
    else if compareDate date mx > 0 then mx
    else date
  | some mn, none => if compareDate date mn < 0 then mn else date
  | none, some mx => if compareDate date mx > 0 then mx else date
  | none, none => date

/-- Modelled from the spec: the missing adapter's `addCalendarYears` —
shifts the year, keeps the month, and clamps the day to the length of
the month in the target year. -/
def addCalendarYears (d : GDate) (n : Int) : GDate :=
  ⟨d.year + n, d.month, min d.day (daysInMonth (d.year + n) d.month)⟩

/-- Modelled from the spec: the missing adapter's `addCalendarDays`
specialised to the single-day step the source's year scan uses. -/
def addCalendarDays1 (d : GDate) : GDate :=
  if d.day < daysInMonth d.year d.month then ⟨d.year, d.month, d.day + 1⟩
  else if d.month < 11 then ⟨d.year, d.month + 1, 1⟩
  else ⟨d.year + 1, 0, 1⟩

/-- Modelled from the spec: the missing adapter's locale year name
(`getYearName`), here the decimal rendering of the year. -/
def getYearName (d : GDate) : String :=
  toString d.year

/-- One cell of the year grid (`MatCalendarCell` restricted to the
fields the multi-year view populates). -/
structure MatCalendarCell where
  value : Int
  displayValue : String
  ariaLabel : String
  enabled : Bool
  rangeStart : GDate
  rangeEnd : GDate
deriving Repr, DecidableEq

/-- The component state owned by one `MatMultiYearView` instance. -/
structure State where
  _activeDate : GDate
  _minDate : Option GDate
  _maxDate : Option GDate
  dateFilter : Option (GDate → Bool)
  _years : List (List MatCalendarCell)
  _todayYear : Int
  _selectedYear : Option Int

/-- External collaborators of the component: the adapter's `today`, the
shared selection model's first selected date, and the text direction. -/
structure Env where
  today : GDate
  firstSelectedDate : Option GDate
  isRtl : Bool

/-- The outward-visible consequences of one keyboard event: the emitted
events, whether cell focus was requested, and whether the platform's
default handling was suppressed. -/
structure Effects where
  selectedChange : Option GDate
  yearSelected : Option GDate
  activeDateChange : Option GDate
  cellFocused : Bool
  defaultPrevented : Bool
deriving Repr, DecidableEq

/-- The effects of an event the handler left untouched. -/
def Effects.empty : Effects :=
  ⟨none, none, none, false, false⟩

/-- `_getValidDateOrNull`: the given object if the adapter reports it a
valid date instance, otherwise `null`.  The input is the deserialized
value; `none` stands for anything the adapter could not deserialize. -/
def _getValidDateOrNull (obj : Option GDate) : Option GDate :=
  match obj with
  | some d => if d.Valid then some d else none
  | none => none

/-- `extractYear`: reads the selection model's first selected date and
derives `_selectedYear` (`null` when nothing is selected). -/
def extractYear (env : Env) (s : State) : State :=
  { s with _selectedYear := env.firstSelectedDate.map (·.year) }

/-- The day-by-day scan of `_shouldEnableYear`: starting from a date,
as long as the date is still in `year`, test the filter and
short-circuit on the first match.  The source's loop is bounded by the
year rolling over after at most 366 days; the fuel argument makes that
bound explicit and is chosen larger than any Gregorian year. -/
def scanYearFilter (f : GDate → Bool) (year : Int) : Nat → GDate → Bool
  | 0, _ => false
  | fuel + 1, date =>
    if date.year = year then (f date || scanYearFilter f year fuel (addCalendarDays1 date))
    else false

/-- `_shouldEnableYear`: disabled beyond the `maxDate` / `minDate`
years; otherwise enabled when no filter is set, else decided by the
day-by-day scan of the year. -/
def _shouldEnableYear (s : State) (year : Int) : Bool :=
  if (s._maxDate.any fun mx => decide (year > mx.year)) ||
     (s._minDate.any fun mn => decide (year < mn.year)) then
    false
  else
    match s.dateFilter with
    | none => true
    | some f => scanYearFilter f year 400 (createDate year 0 1)

/-- `_createCellForYear`: the cell for one year — Jan 1 to Dec 31
range, the adapter's year name as label, and the enablement flag. -/
def _createCellForYear (s : State) (year : Int) : MatCalendarCell :=
  let date := createDate year 0 1
  let even := createDate year 11 31
  let yearName := getYearName date
  ⟨year, yearName, yearName, _shouldEnableYear s year, date, even⟩

/-- The cell-generation loop of `_init`: `i` counts up, years are pushed
onto `row`, and each full row of `yearsPerRow` cells is appended to the
grid.  `fuel` is the number of iterations left (`yearsPerPage - i`). -/
def initLoop (mk : Int → MatCalendarCell) (base : Int) :
    Nat → Nat → List Int → List (List MatCalendarCell) → List (List MatCalendarCell)
  | _, 0, _, years => years
  | i, fuel + 1, row, years =>
    let row1 := row ++ [base + (i : Int)]
    if row1.length = yearsPerRow then
      initLoop mk base (i + 1) fuel [] (years ++ [row1.map mk])
    else
      initLoop mk base (i + 1) fuel row1 years

/-- `_init`: re-derives the selected year, today's year, and the full
page of year cells for the page containing the active date.  JavaScript
`activeYear % yearsPerPage` is the truncating remainder `Int.tmod`. -/
def _init (env : Env) (s : State) : State :=
  let s1 := extractYear env s
  let todayYear := env.today.year
  let activeYear := s1._activeDate.year
  let activeOffset := Int.tmod activeYear (yearsPerPage : Int)
  let years := initLoop (_createCellForYear s1) (activeYear - activeOffset) 0 yearsPerPage [] []
  { s1 with _todayYear := todayYear, _years := years }

/-- The `activeDate` setter: deserialize and validate the value (falling
back to `today`), clamp it into `[minDate, maxDate]`, and rerun `_init`
exactly when `Math.floor(year / yearsPerPage)` changed.  The returned
flag records whether `_init` ran. -/
def setActiveDate (env : Env) (s : State) (value : Option GDate) : State × Bool :=
  let oldActiveDate := s._activeDate
  let validDate := (_getValidDateOrNull value).getD env.today
  let s1 := { s with _activeDate := clampDate validDate s._minDate s._maxDate }
  if Int.fdiv oldActiveDate.year (yearsPerPage : Int) ≠
     Int.fdiv s1._activeDate.year (yearsPerPage : Int) then
    (_init env s1, true)
  else
    (s1, false)

/-- The `minDate` setter: store the validated value (or `null`). -/
def setMinDate (s : State) (value : Option GDate) : State :=
  { s with _minDate := _getValidDateOrNull value }

/-- The `maxDate` setter: store the validated value (or `null`). -/
def setMaxDate (s : State) (value : Option GDate) : State :=
  { s with _maxDate := _getValidDateOrNull value }

/-- `_yearSelected`: emit `yearSelected` with Jan 1 of the year, and
`selectedChange` with the active date's month and day carried into the
chosen year, the day clamped to that month's length.  The state is
returned unchanged alongside the two emitted dates. -/
def _yearSelected (s : State) (year : Int) : State × GDate × GDate :=
  let yearDate := createDate year 0 1
  let month := s._activeDate.month
  let dim := getNumDaysInMonth (createDate year month 1)
  (s, yearDate, createDate year month (min s._activeDate.day dim))

/-- A keyboard event as seen by the handler: key code and whether the
"extended" (`alt`) modifier is held. -/
structure KeyboardEvent where
  keyCode : Nat
  altKey : Bool
deriving Repr, DecidableEq

/-- `_handleCalendarBodyKeydown`: the keyboard dispatch.  Each
navigation key assigns a shifted date through the `activeDate` setter;
`ENTER` / `SPACE` commit the current year; any other key returns before
the common tail, so it neither focuses the cell nor prevents the
default action.  The common tail emits `activeDateChange` when the
adapter's comparison of old and new active dates is nonzero. -/
def _handleCalendarBodyKeydown (env : Env) (s : State) (event : KeyboardEvent) :
    State × Effects :=
  let oldActiveDate := s._activeDate
  let isRtl := env.isRtl
  let step : Option (State × Option GDate × Option GDate) :=
    if event.keyCode = LEFT_ARROW then
      some ((setActiveDate env s
        (some (addCalendarYears s._activeDate (if isRtl then 1 else -1)))).1, none, none)
    else if event.keyCode = RIGHT_ARROW then
      some ((setActiveDate env s
        (some (addCalendarYears s._activeDate (if isRtl then -1 else 1)))).1, none, none)
    else if event.keyCode = UP_ARROW then
      some ((setActiveDate env s
        (some (addCalendarYears s._activeDate (-(yearsPerRow : Int))))).1, none, none)
    else if event.keyCode = DOWN_ARROW then
      some ((setActiveDate env s
        (some (addCalendarYears s._activeDate (yearsPerRow : Int)))).1, none, none)
    else if event.keyCode = HOME then
      some ((setActiveDate env s
        (some (addCalendarYears s._activeDate
          (Int.tmod (-s._activeDate.year) (yearsPerPage : Int))))).1, none, none)
    else if event.keyCode = END then
      some ((setActiveDate env s
        (some (addCalendarYears s._activeDate
          ((yearsPerPage : Int) - Int.tmod s._activeDate.year (yearsPerPage : Int) - 1)))).1,
        none, none)
    else if event.keyCode = PAGE_UP then
      some ((setActiveDate env s
        (some (addCalendarYears s._activeDate
          (if event.altKey then -(yearsPerPage : Int) * 10 else -(yearsPerPage : Int))))).1,
        none, none)
    else if event.keyCode = PAGE_DOWN then
      some ((setActiveDate env s
        (some (addCalendarYears s._activeDate
          (if event.altKey then (yearsPerPage : Int) * 10 else (yearsPerPage : Int))))).1,
        none, none)
    else if event.keyCode = ENTER ∨ event.keyCode = SPACE then
      let r := _yearSelected s s._activeDate.year
      some (r.1, some r.2.2, some r.2.1)
    else
      none
  match step with
  | none => (s, Effects.empty)
  | some (s1, sc, ys) =>
    (s1,
      { selectedChange := sc
        yearSelected := ys
        activeDateChange :=
          if compareDate oldActiveDate s1._activeDate ≠ 0 then some s1._activeDate else none
        cellFocused := true
        defaultPrevented := true })

/-- The ten key codes the handler's switch recognizes. -/
def recognizedKeyCodes : List Nat :=
  [ENTER, SPACE, PAGE_UP, PAGE_DOWN, END, HOME, LEFT_ARROW, UP_ARROW, RIGHT_ARROW, DOWN_ARROW]

/-- Whether the filter accepts some day of month `m` of year `y` with a
day number at least `d` — the specification-side notion of "at least one
day in the remainder of the month satisfies the filter". -/
def monthAnyFrom (f : GDate → Bool) (y : Int) (m d : Nat) : Bool :=
  (List.range' d (daysInMonth y m + 1 - d)).any fun k => f ⟨y, m, k⟩

/-- Whether the filter accepts some day of year `y` on or after day `d`
of month `m` — the specification-side notion of "at least one day in the
rest of the year satisfies the filter". -/
def yearTailAny (f : GDate → Bool) (y : Int) (m d : Nat) : Bool :=
  monthAnyFrom f y m d || (List.range' (m + 1) (11 - m)).any fun mm => monthAnyFrom f y mm 1

/-- The number of days from day `d` of month `m` to the end of year `y`,
inclusive — the number of loop iterations the year scan still needs. -/
def remainingDays (y : Int) (m d : Nat) : Nat :=
  (daysInMonth y m + 1 - d) + ((List.range' (m + 1) (11 - m)).map (daysInMonth y)).sum

/-- A neutral environment for concrete instantiations. -/
def sampleEnv : Env :=
  ⟨⟨2017, 0, 1⟩, none, false⟩

/-- A neutral state (no bounds, no filter) for concrete instantiations. -/
def sampleState : State :=
  ⟨⟨2017, 0, 1⟩, none, none, none, [], 2017, none⟩

/-- A state whose `minDate` lies later in the year than the active date,
in the same year. -/
def clampState : State :=
  ⟨⟨2020, 5, 15⟩, some ⟨2020, 7, 1⟩, none, none, [], 2020, none⟩

/-- The environment used with `clampState`. -/
def clampEnv : Env :=
  ⟨⟨2020, 5, 15⟩, none, false⟩

/-- A state whose `minDate` is later than its `maxDate`. -/
def boundsState : State :=
  ⟨⟨2030, 0, 1⟩, some ⟨2030, 0, 1⟩, some ⟨2020, 0, 1⟩, none, [], 2017, none⟩

/-- A state with well-ordered bounds. -/
def orderedState : State :=
  ⟨⟨2025, 5, 15⟩, some ⟨2020, 0, 1⟩, some ⟨2030, 0, 1⟩, none, [], 2025, none⟩

/-- The environment used with `orderedState`. -/
def orderedEnv : Env :=
  ⟨⟨2025, 5, 15⟩, none, false⟩

/-- An unbounded state with active date 2023-04-15. -/
def homeEndState : State :=
  ⟨⟨2023, 3, 15⟩, none, none, none, [], 2023, none⟩

/-! ### Helper lemmas -/

theorem init_activeDate (env : Env) (s : State) : (_init env s)._activeDate = s._activeDate :=
  rfl

theorem initLoop_eval (mk : Int → MatCalendarCell) (b : Int) :
    initLoop mk b 0 24 [] [] =
      [[mk (b + 0), mk (b + 1), mk (b + 2), mk (b + 3)],
       [mk (b + 4), mk (b + 5), mk (b + 6), mk (b + 7)],
       [mk (b + 8), mk (b + 9), mk (b + 10), mk (b + 11)],
       [mk (b + 12), mk (b + 13), mk (b + 14), mk (b + 15)],
       [mk (b + 16), mk (b + 17), mk (b + 18), mk (b + 19)],
       [mk (b + 20), mk (b + 21), mk (b + 22), mk (b + 23)]] :=
  rfl

theorem init_years_def (env : Env) (s : State) :
    (_init env s)._years =
      initLoop (_createCellForYear (extractYear env s))
        (s._activeDate.year - Int.tmod s._activeDate.year 24) 0 24 [] [] :=
  rfl

theorem createCell_value (s : State) (y : Int) : (_createCellForYear s y).value = y :=
  rfl

theorem init_years_values (env : Env) (s : State) :
    (_init env s)._years.flatten.map (·.value) =
      (List.range 24).map
        (fun i => (s._activeDate.year - Int.tmod s._activeDate.year 24) + (i : Int)) :=
  rfl

theorem compareDate_eq_zero_iff (a b : GDate) : compareDate a b = 0 ↔ a = b := by
  obtain ⟨ay, am, ad⟩ := a
  obtain ⟨cy, cm, cd⟩ := b
  simp only [compareDate, GDate.mk.injEq]
  split_ifs <;> (constructor <;> (intro h3; omega))

theorem compareDate_self (a : GDate) : compareDate a a = 0 := by
  simp [compareDate]

theorem compareDate_swap (a b : GDate) : compareDate a b = -compareDate b a := by
  obtain ⟨ay, am, ad⟩ := a
  obtain ⟨cy, cm, cd⟩ := b
  simp only [compareDate]
  split_ifs <;> omega

theorem daysInMonth_ge (y : Int) (m : Nat) : 28 ≤ daysInMonth y m := by
  unfold daysInMonth
  split_ifs <;> norm_num

theorem addCalendarYears_valid (d : GDate) (n : Int) (h : d.Valid) :
    (addCalendarYears d n).Valid := by
  obtain ⟨hm, hd1, hd2⟩ := h
  have h28 := daysInMonth_ge (d.year + n) d.month
  unfold GDate.Valid addCalendarYears
  exact ⟨hm, by simp; omega, by simp⟩

theorem tmod_neg_left (y n : Int) : Int.tmod (-y) n = -Int.tmod y n := by
  rw [Int.tmod_def, Int.tmod_def, Int.neg_tdiv]
  ring

theorem range24 :
    List.range 24 =
      [0, 1, 2, 3, 4, 5, 6, 7, 8, 9, 10, 11, 12,
       13, 14, 15, 16, 17, 18, 19, 20, 21, 22, 23] :=
  rfl

theorem setActiveDate_unbounded (env : Env) (s : State) (d : GDate)
    (hmin : s._minDate = none) (hmax : s._maxDate = none) (hd : d.Valid) :
    (setActiveDate env s (some d)).1._activeDate = d := by
  simp only [setActiveDate]
  split <;> simp [init_activeDate, _getValidDateOrNull, hd, hmin, hmax, clampDate]

theorem emission_if (oldD newD : GDate) :
    (if compareDate oldD newD ≠ 0 then some newD else none) =
      if newD = oldD then none else some newD := by
  by_cases h : newD = oldD
  · subst h
    simp [compareDate_self]
  · simp [compareDate_eq_zero_iff, h, Ne.symm h]

theorem clampDate_valid (d : GDate) (lo hi : Option GDate) (hd : d.Valid)
    (hlo : ∀ x, lo = some x → x.Valid) (hhi : ∀ x, hi = some x → x.Valid) :
    (clampDate d lo hi).Valid := by
  rcases lo with _ | mn <;> rcases hi with _ | mx <;> simp only [clampDate] <;>
    (try split_ifs) <;>
    first
      | exact hd
      | exact hlo _ rfl
      | exact hhi _ rfl

theorem clampDate_ge_min (d mn : GDate) (hi : Option GDate)
    (hord : ∀ x, hi = some x → compareDate mn x ≤ 0) :
    compareDate mn (clampDate d (some mn) hi) ≤ 0 := by
  rcases hi with _ | mx <;> simp only [clampDate] <;> split_ifs with h1 <;>
    first
      | simp [compareDate_self]
      | exact hord _ rfl
      | (rw [compareDate_swap]; omega)

theorem clampDate_le_max (d mx : GDate) (lo : Option GDate)
    (hord : ∀ x, lo = some x → compareDate x mx ≤ 0) :
    compareDate (clampDate d lo (some mx)) mx ≤ 0 := by
  rcases lo with _ | mn <;> simp only [clampDate] <;> split_ifs with h1 <;>
    first
      | simp [compareDate_self]
      | exact hord _ rfl
      | omega

theorem monthAnyFrom_cons (f : GDate → Bool) (y : Int) (m d : Nat)
    (h : d ≤ daysInMonth y m) :
    monthAnyFrom f y m d = (f ⟨y, m, d⟩ || monthAnyFrom f y m (d + 1)) := by
  unfold monthAnyFrom
  have h1 : daysInMonth y m + 1 - d = (daysInMonth y m + 1 - (d + 1)) + 1 := by omega
  rw [h1, List.range'_succ]
  simp

theorem monthAnyFrom_end (f : GDate → Bool) (y : Int) (m : Nat) :
    monthAnyFrom f y m (daysInMonth y m + 1) = false := by
  unfold monthAnyFrom
  simp

theorem monthsRange_cons (m : Nat) (h : m < 11) :
    List.range' (m + 1) (11 - m) = (m + 1) :: List.range' (m + 2) (10 - m) := by
  have h1 : 11 - m = (10 - m) + 1 := by omega
  rw [h1, List.range'_succ]

theorem yearTailAny_cons (f : GDate → Bool) (y : Int) (m d : Nat)
    (h : d ≤ daysInMonth y m) :
    yearTailAny f y m d = (f ⟨y, m, d⟩ || yearTailAny f y m (d + 1)) := by
  unfold yearTailAny
  rw [monthAnyFrom_cons f y m d h, Bool.or_assoc]

theorem yearTailAny_next_month (f : GDate → Bool) (y : Int) (m : Nat) (h : m < 11) :
    yearTailAny f y m (daysInMonth y m + 1) = yearTailAny f y (m + 1) 1 := by
  unfold yearTailAny
  have h1 : 11 - (m + 1) = 10 - m := by omega
  rw [monthAnyFrom_end, monthsRange_cons m h, h1]
  simp

theorem yearTailAny_end (f : GDate → Bool) (y : Int) :
    yearTailAny f y 11 (daysInMonth y 11 + 1) = false := by
  unfold yearTailAny
  rw [monthAnyFrom_end]
  simp

theorem scanYearFilter_out (f : GDate → Bool) (y : Int) (fuel : Nat) (d : GDate)
    (h : d.year ≠ y) : scanYearFilter f y fuel d = false := by
  cases fuel <;> simp [scanYearFilter, h]

theorem remainingDays_day (y : Int) (m d : Nat) (h : d ≤ daysInMonth y m) :
    remainingDays y m d = remainingDays y m (d + 1) + 1 := by
  unfold remainingDays
  omega

theorem remainingDays_month (y : Int) (m : Nat) (h : m < 11) :
    remainingDays y m (daysInMonth y m) = remainingDays y (m + 1) 1 + 1 := by
  unfold remainingDays
  have h1 : 11 - (m + 1) = 10 - m := by omega
  rw [monthsRange_cons m h, List.map_cons, List.sum_cons, h1]
  have h2 : List.range' (m + 1 + 1) (10 - m) = List.range' (m + 2) (10 - m) := rfl
  rw [h2]
  omega

theorem scanYearFilter_eq_tail (f : GDate → Bool) (y : Int) :
    ∀ fuel m d, m < 12 → 1 ≤ d → d ≤ daysInMonth y m → remainingDays y m d ≤ fuel →
      scanYearFilter f y fuel ⟨y, m, d⟩ = yearTailAny f y m d := by
  intro fuel
  induction fuel with
  | zero =>
    intro m d hm hd1 hd2 hr
    exfalso
    unfold remainingDays at hr
    omega
  | succ n ih =>
    intro m d hm hd1 hd2 hr
    rw [scanYearFilter, if_pos rfl]
    by_cases hlt : d < daysInMonth y m
    · have hnext : addCalendarDays1 ⟨y, m, d⟩ = ⟨y, m, d + 1⟩ := by
        simp [addCalendarDays1, hlt]
      have hrem := remainingDays_day y m d (le_of_lt hlt)
      rw [hnext, ih m (d + 1) hm (by omega) (by omega) (by omega),
        yearTailAny_cons f y m d (le_of_lt hlt)]
    · have hde : d = daysInMonth y m := by omega
      subst hde
      by_cases hm11 : m < 11
      · have hnext : addCalendarDays1 ⟨y, m, daysInMonth y m⟩ = ⟨y, m + 1, 1⟩ := by
          simp [addCalendarDays1, hm11]
        have h28 := daysInMonth_ge y (m + 1)
        have hrem := remainingDays_month y m hm11
        rw [hnext, ih (m + 1) 1 (by omega) (by omega) (by omega) (by omega),
          yearTailAny_cons f y m (daysInMonth y m) le_rfl,
          yearTailAny_next_month f y m hm11]
      · have hm' : m = 11 := by omega
        subst hm'
        have hnext : addCalendarDays1 ⟨y, 11, daysInMonth y 11⟩ = ⟨y + 1, 0, 1⟩ := by
          simp [addCalendarDays1]
        rw [hnext, scanYearFilter_out f y n _ (by simp),
          yearTailAny_cons f y 11 (daysInMonth y 11) le_rfl, yearTailAny_end]

theorem remainingDays_jan1_le (y : Int) : remainingDays y 0 1 ≤ 400 := by
  have h1 : List.range' (0 + 1) (11 - 0) = [1, 2, 3, 4, 5, 6, 7, 8, 9, 10, 11] := rfl
  unfold remainingDays
  rw [h1]
  cases hL : isLeapYear y <;> simp [daysInMonth, hL]

theorem scan_jan1_eq (f : GDate → Bool) (y : Int) :
    scanYearFilter f y 400 (createDate y 0 1) = yearTailAny f y 0 1 := by
  have h31 : daysInMonth y 0 = 31 := by simp [daysInMonth]
  exact scanYearFilter_eq_tail f y 400 0 1 (by norm_num) le_rfl (by omega)
    (remainingDays_jan1_le y)

theorem monthAnyFrom_one_iff (f : GDate → Bool) (y : Int) (m : Nat) :
    monthAnyFrom f y m 1 = true ↔
      ∃ d, 1 ≤ d ∧ d ≤ daysInMonth y m ∧ f ⟨y, m, d⟩ = true := by
  unfold monthAnyFrom
  rw [List.any_eq_true]
  constructor
  · rintro ⟨k, hk, hf⟩
    rw [List.mem_range'_1] at hk
    exact ⟨k, hk.1, by omega, hf⟩
  · rintro ⟨d, h1, h2, hf⟩
    exact ⟨d, by rw [List.mem_range'_1]; omega, hf⟩

theorem yearTailAny_jan1_iff (f : GDate → Bool) (y : Int) :
    yearTailAny f y 0 1 = true ↔
      ∃ m, m < 12 ∧ ∃ d, 1 ≤ d ∧ d ≤ daysInMonth y m ∧ f ⟨y, m, d⟩ = true := by
  unfold yearTailAny
  rw [Bool.or_eq_true, List.any_eq_true]
  constructor
  · rintro (h0 | ⟨mm, hmm, hmany⟩)
    · exact ⟨0, by norm_num, (monthAnyFrom_one_iff f y 0).mp h0⟩
    · rw [List.mem_range'_1] at hmm
      exact ⟨mm, by omega, (monthAnyFrom_one_iff f y mm).mp hmany⟩
  · rintro ⟨m, hm, hd⟩
    rcases Nat.eq_zero_or_pos m with rfl | hpos
    · exact Or.inl ((monthAnyFrom_one_iff f y 0).mpr hd)
    · exact Or.inr ⟨m, by rw [List.mem_range'_1]; omega,
        (monthAnyFrom_one_iff f y m).mpr hd⟩

/-! ### Claim theorems -/

/-- C1: for every active date, `_init` produces exactly 24 year cells in
strictly ascending year order, partitioned in generation order into 6
rows of 4, and the years are `activeYear - (activeYear tmod 24) + i` for
`i` in `[0, 24)` — the truncating remainder being JavaScript's `%`. -/
theorem init_page_years (env : Env) (s : State) :
    (_init env s)._years.length = 6 ∧
    (∀ row ∈ (_init env s)._years, row.length = 4) ∧
    (_init env s)._years.flatten.map (·.value) =
      (List.range 24).map
        (fun i => (s._activeDate.year - Int.tmod s._activeDate.year 24) + (i : Int)) ∧
    List.Chain' (· < ·) ((_init env s)._years.flatten.map (·.value)) := by
  refine ⟨rfl, ?_, init_years_values env s, ?_⟩
  · rw [init_years_def, initLoop_eval]
    intro row h
    simp only [List.mem_cons, List.not_mem_nil, or_false] at h
    rcases h with rfl | rfl | rfl | rfl | rfl | rfl <;> rfl
  · rw [init_years_values]
    simp only [List.range, List.range.loop, List.map_cons, List.map_nil, List.chain'_cons,
      List.chain'_singleton, and_true]
    norm_num

/-- C2: a year cell is enabled iff the year does not exceed the
`maxDate` year (when set), is not below the `minDate` year (when set),
and either no `dateFilter` is configured or at least one day of the
year satisfies it; in particular no year beyond the bounds is ever
enabled, whatever the filter. -/
theorem shouldEnableYear_iff (s : State) (y : Int) :
    _shouldEnableYear s y = true ↔
      ((∀ mx, s._maxDate = some mx → y ≤ mx.year) ∧
       (∀ mn, s._minDate = some mn → mn.year ≤ y) ∧
       (∀ f, s.dateFilter = some f →
         ∃ m, m < 12 ∧ ∃ d, 1 ≤ d ∧ d ≤ daysInMonth y m ∧ f ⟨y, m, d⟩ = true)) := by
  have hscan : ∀ f : GDate → Bool, scanYearFilter f y 400 (createDate y 0 1) = true ↔
      (∃ m, m < 12 ∧ ∃ d, 1 ≤ d ∧ d ≤ daysInMonth y m ∧ f ⟨y, m, d⟩ = true) := fun f => by
    rw [scan_jan1_eq, yearTailAny_jan1_iff]
  unfold _shouldEnableYear
  constructor
  · intro h
    split_ifs at h with hb
    refine ⟨?_, ?_, ?_⟩
    · intro mx hx
      rw [hx] at hb
      simp [Option.any] at hb
      omega
    · intro mn hx
      rw [hx] at hb
      simp [Option.any] at hb
      omega
    · intro f hf
      rw [hf] at h
      exact (hscan f).mp h
  · rintro ⟨h1, h2, h3⟩
    split_ifs with hb
    · exfalso
      rcases hmx : s._maxDate with _ | mx <;> rcases hmn : s._minDate with _ | mn <;>
          rw [hmx, hmn] at hb <;> simp [Option.any] at hb
      · have ha := h2 mn hmn
        omega
      · have ha := h1 mx hmx
        omega
      · have ha := h1 mx hmx
        have hc := h2 mn hmn
        rcases hb with hb | hb <;> omega
    · rcases hf : s.dateFilter with _ | f
      · rfl
      · exact (hscan f).mpr (h3 f hf)

/-- C3: committing a year emits `yearSelected` with `createDate(y, 0, 1)`
and `selectedChange` with the active date's month and day carried into
year `y`, the day clamped to the length of that month in year `y`. -/
theorem yearSelected_emits (s : State) (y : Int) :
    (_yearSelected s y).2.1 = createDate y 0 1 ∧
    (_yearSelected s y).2.2 =
      createDate y s._activeDate.month
        (min s._activeDate.day
          (getNumDaysInMonth (createDate y s._activeDate.month 1))) :=
  ⟨rfl, rfl⟩

/-- C9: committing a year leaves the component state — in particular the
active date — completely unchanged; `_yearSelected` only produces the
two emitted dates. -/
theorem yearSelected_state_unchanged (s : State) (y : Int) :
    (_yearSelected s y).1 = s :=
  rfl

/-- C4: an `activeDate` assignment reruns `_init` if and only if
`floor(oldYear / 24)` differs from `floor(newYear / 24)`, `newYear`
being the year of the validated and clamped new active date; when the
quotient is unchanged the cell grid is untouched, and when it changes
the grid is the freshly generated one. -/
theorem setActiveDate_regen_iff (env : Env) (s : State) (v : Option GDate) :
    ((setActiveDate env s v).2 = true ↔
      Int.fdiv s._activeDate.year 24 ≠
        Int.fdiv (setActiveDate env s v).1._activeDate.year 24) ∧
    ((setActiveDate env s v).2 = false → (setActiveDate env s v).1._years = s._years) ∧
    ((setActiveDate env s v).2 = true →
      (setActiveDate env s v).1._years =
        (_init env { s with
          _activeDate :=
            clampDate ((_getValidDateOrNull v).getD env.today) s._minDate s._maxDate })._years) := by
  simp only [setActiveDate]
  split
  · next h =>
    exact ⟨⟨fun _ => h, fun _ => rfl⟩, fun h2 => Bool.noConfusion h2, fun _ => rfl⟩
  · next h =>
    rw [not_ne_iff] at h
    exact ⟨⟨fun h2 => Bool.noConfusion h2, fun h2 => absurd h h2⟩, fun _ => rfl,
      fun h2 => Bool.noConfusion h2⟩

/-- C10: assigning `minDate` or `maxDate` only stores the validated
bound (an invalid value becomes `null`); the active date, the cell
grid, today's year and the selected year are all left unchanged. -/
theorem minMax_setters_frame (s : State) (v : Option GDate) :
    (setMinDate s v)._activeDate = s._activeDate ∧
    (setMinDate s v)._years = s._years ∧
    (setMinDate s v)._todayYear = s._todayYear ∧
    (setMinDate s v)._selectedYear = s._selectedYear ∧
    (setMinDate s v)._maxDate = s._maxDate ∧
    (setMaxDate s v)._activeDate = s._activeDate ∧
    (setMaxDate s v)._years = s._years ∧
    (setMaxDate s v)._todayYear = s._todayYear ∧
    (setMaxDate s v)._selectedYear = s._selectedYear ∧
    (setMaxDate s v)._minDate = s._minDate ∧
    (setMinDate s v)._minDate = _getValidDateOrNull v ∧
    (setMaxDate s v)._maxDate = _getValidDateOrNull v ∧
    (∀ d, v = some d → ¬ d.Valid →
      (setMinDate s v)._minDate = none ∧ (setMaxDate s v)._maxDate = none) := by
  refine ⟨rfl, rfl, rfl, rfl, rfl, rfl, rfl, rfl, rfl, rfl, rfl, rfl, ?_⟩
  rintro d rfl hd
  simp [setMinDate, setMaxDate, _getValidDateOrNull, hd]

/-- C5 counterexample: with `minDate` 2020-08-01 and active date
2020-06-15, pressing LEFT clamps the candidate 2019-06-15 back to
2020-08-01 — the year is unchanged, yet `activeDateChange` fires,
refuting "no emission occurs when the year is unchanged". -/
theorem keydown_year_emission_cex :
    (_handleCalendarBodyKeydown clampEnv clampState ⟨37, false⟩).1._activeDate.year =
      clampState._activeDate.year ∧
    (_handleCalendarBodyKeydown clampEnv clampState ⟨37, false⟩).2.activeDateChange =
      some ⟨2020, 7, 1⟩ :=
  ⟨rfl, rfl⟩

/-- C5 amended: for every recognized keyboard command,
`activeDateChange` is emitted with the new active date if and only if
the new active date differs from the previous one under the adapter's
full (year, month, day) comparison; a year change always implies
emission, but emission also occurs when clamping changes only the month
or the day. -/
theorem keydown_activeDateChange_iff (env : Env) (s : State) (ev : KeyboardEvent)
    (h : ev.keyCode ∈ recognizedKeyCodes) :
    (_handleCalendarBodyKeydown env s ev).2.activeDateChange =
      if (_handleCalendarBodyKeydown env s ev).1._activeDate = s._activeDate then none
      else some ((_handleCalendarBodyKeydown env s ev).1._activeDate) := by
  obtain ⟨kc, alt⟩ := ev
  simp only [recognizedKeyCodes, ENTER, SPACE, PAGE_UP, PAGE_DOWN, END, HOME, LEFT_ARROW,
    UP_ARROW, RIGHT_ARROW, DOWN_ARROW, List.mem_cons, List.not_mem_nil, or_false] at h
  rcases h with rfl | rfl | rfl | rfl | rfl | rfl | rfl | rfl | rfl | rfl <;>
    exact emission_if _ _

/-- C5 witness: the amended emission rule instantiated for LEFT from an
unbounded state. -/
theorem keydown_activeDateChange_iff_witness :
    (37 ∈ recognizedKeyCodes) ∧
    (_handleCalendarBodyKeydown sampleEnv sampleState ⟨37, false⟩).2.activeDateChange =
      (if (_handleCalendarBodyKeydown sampleEnv sampleState ⟨37, false⟩).1._activeDate =
          sampleState._activeDate then none
       else some ((_handleCalendarBodyKeydown sampleEnv sampleState ⟨37, false⟩).1._activeDate)) :=
  ⟨by decide, keydown_activeDateChange_iff sampleEnv sampleState ⟨37, false⟩ (by decide)⟩

/-- C6: absent `minDate`/`maxDate`, HOME moves the active date to the
first year generated for the current page (delta
`-(activeYear tmod 24)`) and END to the last year of that same page
(delta `24 - activeYear tmod 24 - 1`), for every starting offset,
including year zero and negative years; the first and last cells of the
page `_init` generates carry exactly those years. -/
theorem home_end_page (env : Env) (s : State) (alt : Bool)
    (hmin : s._minDate = none) (hmax : s._maxDate = none) (hv : s._activeDate.Valid) :
    (_handleCalendarBodyKeydown env s ⟨HOME, alt⟩).1._activeDate.year =
      s._activeDate.year - Int.tmod s._activeDate.year 24 ∧
    (_handleCalendarBodyKeydown env s ⟨END, alt⟩).1._activeDate.year =
      (s._activeDate.year - Int.tmod s._activeDate.year 24) + 23 ∧
    ((_init env s)._years.flatten.map (·.value)).head? =
      some (s._activeDate.year - Int.tmod s._activeDate.year 24) ∧
    ((_init env s)._years.flatten.map (·.value)).getLast? =
      some ((s._activeDate.year - Int.tmod s._activeDate.year 24) + 23) := by
  refine ⟨?_, ?_, ?_, ?_⟩
  · have hstep : (_handleCalendarBodyKeydown env s ⟨HOME, alt⟩).1 =
        (setActiveDate env s (some (addCalendarYears s._activeDate
          (Int.tmod (-s._activeDate.year) (yearsPerPage : Int))))).1 := rfl
    rw [hstep, setActiveDate_unbounded env s _ hmin hmax (addCalendarYears_valid _ _ hv)]
    show s._activeDate.year + Int.tmod (-s._activeDate.year) (yearsPerPage : Int) = _
    rw [tmod_neg_left]
    have h24 : ((yearsPerPage : Nat) : Int) = 24 := by norm_num [yearsPerPage]
    rw [h24]
    ring
  · have hstep : (_handleCalendarBodyKeydown env s ⟨END, alt⟩).1 =
        (setActiveDate env s (some (addCalendarYears s._activeDate
          ((yearsPerPage : Int) - Int.tmod s._activeDate.year (yearsPerPage : Int) - 1)))).1 :=
      rfl
    rw [hstep, setActiveDate_unbounded env s _ hmin hmax (addCalendarYears_valid _ _ hv)]
    show s._activeDate.year +
        ((yearsPerPage : Int) - Int.tmod s._activeDate.year (yearsPerPage : Int) - 1) = _
    have h24 : ((yearsPerPage : Nat) : Int) = 24 := by norm_num [yearsPerPage]
    rw [h24]
    ring
  · rw [init_years_values, range24]
    norm_num
  · rw [init_years_values, range24]
    norm_num [List.getLast?]

/-- C6 witness: HOME from 2023-04-15 lands on 2016 and END on 2039. -/
theorem home_end_page_witness :
    (_handleCalendarBodyKeydown sampleEnv homeEndState ⟨HOME, false⟩).1._activeDate.year = 2016 ∧
    (_handleCalendarBodyKeydown sampleEnv homeEndState ⟨END, false⟩).1._activeDate.year = 2039 := by
  have h := home_end_page sampleEnv homeEndState false rfl rfl (by decide)
  exact ⟨by rw [h.1]; decide, by rw [h.2.1]; decide⟩

/-- C7 counterexample: with `minDate` 2030-01-01 later than `maxDate`
2020-01-01, assigning the valid date 2030-01-02 stores 2020-01-01,
which lies before the configured `minDate` — the stored active date is
not within `[minDate, maxDate]`. -/
theorem setActiveDate_bounds_cex :
    (setActiveDate sampleEnv boundsState (some ⟨2030, 0, 2⟩)).1._activeDate = ⟨2020, 0, 1⟩ ∧
    compareDate (setActiveDate sampleEnv boundsState (some ⟨2030, 0, 2⟩)).1._activeDate
      ⟨2030, 0, 1⟩ < 0 :=
  ⟨rfl, by decide⟩

/-- C7 amended: provided `minDate ≤ maxDate` whenever both are set (and
the configured bounds and "today" are valid dates), every `activeDate`
assignment stores a valid date lying within the bounds; a value the
adapter rejects is replaced by "today" and then clamped; no assignment
raises (the setter is a total function). -/
theorem setActiveDate_valid_clamped (env : Env) (s : State) (v : Option GDate)
    (htoday : env.today.Valid)
    (hminv : ∀ d, s._minDate = some d → d.Valid)
    (hmaxv : ∀ d, s._maxDate = some d → d.Valid)
    (hord : ∀ lo hi, s._minDate = some lo → s._maxDate = some hi → compareDate lo hi ≤ 0) :
    (setActiveDate env s v).1._activeDate.Valid ∧
    (∀ lo, s._minDate = some lo →
      compareDate lo (setActiveDate env s v).1._activeDate ≤ 0) ∧
    (∀ hi, s._maxDate = some hi →
      compareDate (setActiveDate env s v).1._activeDate hi ≤ 0) ∧
    (_getValidDateOrNull v = none →
      (setActiveDate env s v).1._activeDate = clampDate env.today s._minDate s._maxDate) := by
  have hact : (setActiveDate env s v).1._activeDate =
      clampDate ((_getValidDateOrNull v).getD env.today) s._minDate s._maxDate := by
    simp only [setActiveDate]
    split <;> rfl
  have hvd : ((_getValidDateOrNull v).getD env.today).Valid := by
    rcases v with _ | d
    · exact htoday
    · by_cases hd : d.Valid
      · simp [_getValidDateOrNull, hd]
      · simpa [_getValidDateOrNull, hd] using htoday
  refine ⟨?_, ?_, ?_, ?_⟩
  · rw [hact]
    exact clampDate_valid _ _ _ hvd hminv hmaxv
  · intro lo hlo
    rw [hact, hlo]
    exact clampDate_ge_min _ _ _ fun x hx => hord lo x hlo hx
  · intro hi hhi
    rw [hact, hhi]
    exact clampDate_le_max _ _ _ fun x hx => hord x hi hx hhi
  · intro h0
    rw [hact, h0]
    rfl

/-- C7 witness: with bounds 2020-01-01 ≤ 2030-01-01, assigning an
unparseable value stores a valid date within the bounds. -/
theorem setActiveDate_valid_clamped_witness :
    (setActiveDate orderedEnv orderedState none).1._activeDate.Valid ∧
    compareDate ⟨2020, 0, 1⟩ (setActiveDate orderedEnv orderedState none).1._activeDate ≤ 0 ∧
    compareDate (setActiveDate orderedEnv orderedState none).1._activeDate ⟨2030, 0, 1⟩ ≤ 0 :=
  ⟨(setActiveDate_valid_clamped orderedEnv orderedState none (by decide)
      (by intro d hd; injection hd with h; subst h; decide)
      (by intro d hd; injection hd with h; subst h; decide)
      (by intro lo hi h1 h2; injection h1 with h1; injection h2 with h2;
          subst h1; subst h2; decide)).1,
   (setActiveDate_valid_clamped orderedEnv orderedState none (by decide)
      (by intro d hd; injection hd with h; subst h; decide)
      (by intro d hd; injection hd with h; subst h; decide)
      (by intro lo hi h1 h2; injection h1 with h1; injection h2 with h2;
          subst h1; subst h2; decide)).2.1 ⟨2020, 0, 1⟩ rfl,
   (setActiveDate_valid_clamped orderedEnv orderedState none (by decide)
      (by intro d hd; injection hd with h; subst h; decide)
      (by intro d hd; injection hd with h; subst h; decide)
      (by intro lo hi h1 h2; injection h1 with h1; injection h2 with h2;
          subst h1; subst h2; decide)).2.2.1 ⟨2030, 0, 1⟩ rfl⟩

/-- C8: a keyboard event whose key code is none of the recognized
commands leaves the state untouched, emits nothing, requests no focus
and does not suppress the default handling. -/
theorem keydown_unrecognized_noop (env : Env) (s : State) (ev : KeyboardEvent)
    (h : ev.keyCode ∉ recognizedKeyCodes) :
    _handleCalendarBodyKeydown env s ev = (s, Effects.empty) := by
  obtain ⟨kc, alt⟩ := ev
  simp only [recognizedKeyCodes, ENTER, SPACE, PAGE_UP, PAGE_DOWN, END, HOME, LEFT_ARROW,
    UP_ARROW, RIGHT_ARROW, DOWN_ARROW, List.mem_cons, List.not_mem_nil, or_false,
    not_or] at h
  obtain ⟨h1, h2, h3, h4, h5, h6, h7, h8, h9, h10⟩ := h
  simp [_handleCalendarBodyKeydown, ENTER, SPACE, PAGE_UP, PAGE_DOWN, END, HOME, LEFT_ARROW,
    UP_ARROW, RIGHT_ARROW, DOWN_ARROW, h1, h2, h3, h4, h5, h6, h7, h8, h9, h10]

/-- C8 witness: the ESCAPE key (27) is a no-op. -/
theorem keydown_unrecognized_noop_witness :
    _handleCalendarBodyKeydown sampleEnv sampleState ⟨27, false⟩ =
      (sampleState, Effects.empty) :=
  keydown_unrecognized_noop sampleEnv sampleState ⟨27, false⟩ (by decide)

/-- C10 witness: assigning an invalid date (month 12) to `minDate` and
`maxDate` stores `null`. -/
theorem minMax_setters_frame_witness :
    (setMinDate sampleState (some ⟨2020, 12, 1⟩))._minDate = none ∧
    (setMaxDate sampleState (some ⟨2020, 12, 1⟩))._maxDate = none :=
  (minMax_setters_frame sampleState
    (some ⟨2020, 12, 1⟩)).2.2.2.2.2.2.2.2.2.2.2.2 ⟨2020, 12, 1⟩ rfl (by decide)

end MultiYearView
